import Mathlib

/-!
Verification of the AC remote climate controller (`climate.py`).

The controller state machine is embedded shallowly:

* `Ctrl` holds the mutable fields of `ACRemoteControl` that the control
  logic reads and writes (`_active`, `_target_temp`, `_hvac_mode`,
  `_attr_preset_mode`, `_saved_target_temp`, `_presets`,
  `min_cycle_duration`, `_last_state`, `_last_control_action_time`,
  `_is_last_send_succeed`).
* Wall-clock time is passed explicitly as a rational `now`; the network
  outcome of the single HTTP POST is passed as a boolean `netOk`.
* An operation returns the new state together with `Option Payload`:
  `some p` means exactly one outbound request carrying `p` was issued,
  `none` means no network call happened.  A `none` at the outer `Option`
  layer marks the one reachable Python crash (`self._last_state.mode`
  when `_last_state` is `None`).
-/

namespace ACRemote

/-- HVAC modes of the host platform (`HVACMode`). The entity itself only
ever assigns `heat`, `cool` and `off`; the remaining values can still be
passed to `async_set_hvac_mode`. -/
inductive HVACMode where
  | heat
  | cool
  | off
  | auto
  | dry
  | fanOnly
  | heatCool
  deriving DecidableEq, Repr

/-- Host platform `HVACAction` values used by the `hvac_action` property. -/
inductive HVACAction where
  | idle
  | heating
  | cooling
  | off
  deriving DecidableEq, Repr

/-- The `ACState` dataclass: last payload-relevant logical state. -/
structure ACState where
  temperature : Option Rat
  mode : Option HVACMode
  deriving DecidableEq, Repr

/-- The JSON body built in `_async_control_heating_command_sender`. -/
structure Payload where
  power_toggle : Bool
  power : Bool
  mode : String
  fan : String
  temperature : Option Rat
  deriving DecidableEq, Repr

/-- Controller state: the fields of `ACRemoteControl` read or written by
the control logic. -/
structure Ctrl where
  active : Bool
  target_temp : Option Rat
  hvac_mode : Option HVACMode
  preset_mode : String
  saved_target_temp : Option Rat
  presets : List (String × Rat)
  min_cycle_duration : Option Rat
  last_state : Option ACState
  last_control_action_time : Rat
  is_last_send_succeed : Bool
  deriving DecidableEq, Repr

/-- `_is_device_active`: always `True` (no feedback from the device). -/
def isDeviceActive : Bool := true

/-- Python truthiness of the optional `min_cycle_duration` timedelta:
`None` and a zero duration are falsy. -/
def minCycleTruthy : Option Rat → Bool
  | none => false
  | some d => decide (d ≠ 0)

/-- `ACState(self.target_temperature, self.hvac_mode)`. -/
def curState (s : Ctrl) : ACState :=
  ⟨s.target_temp, s.hvac_mode⟩

/-- The activation step at the top of `_async_control_heating`: if not yet
active and the target temperature is defined, become active. -/
def activate (s : Ctrl) : Ctrl :=
  if !s.active && s.target_temp.isSome then { s with active := true } else s

/-- `long_enough`: strictly more than `min_cycle_duration` elapsed since
`_last_control_action_time` (`True` when no duration is configured; only
consulted when one is). -/
def longEnough (now : Rat) (s : Ctrl) : Bool :=
  match s.min_cycle_duration with
  | none => true
  | some d => decide (now - s.last_control_action_time > d)

/-- The payload dictionary built when the logical state changed:
`power_toggle` is true iff the mode crosses the OFF boundary, `power`
iff the current mode is not OFF, `mode` is `COOL_MODE` only for COOL,
fan is fixed, temperature is the current target. -/
def mkPayload (last : ACState) (s : Ctrl) : Payload :=
  { power_toggle :=
      (decide (last.mode = some HVACMode.off) && decide (s.hvac_mode ≠ some HVACMode.off)) ||
      (decide (last.mode ≠ some HVACMode.off) && decide (s.hvac_mode = some HVACMode.off))
    power := decide (s.hvac_mode ≠ some HVACMode.off)
    mode := if s.hvac_mode = some HVACMode.cool then "COOL_MODE" else "HEAT_MODE"
    fan := "FAN_AUTO"
    temperature := s.target_temp }

/-- `_async_control_heating_command_sender`: if the current logical state
equals `_last_state`, do nothing; otherwise build the payload, send it
(`netOk` records the outcome in `_is_last_send_succeed`), and update
`_last_state` and `_last_control_action_time` regardless of the outcome.
Result `none` is the Python `AttributeError` on `self._last_state.mode`
when `_last_state` is still `None`. -/
def commandSender (now : Rat) (netOk : Bool) (s : Ctrl) :
    Option (Ctrl × Option Payload) :=
  if s.last_state = some (curState s) then
    some (s, none)
  else
    match s.last_state with
    | none => none
    | some last =>
        some ({ s with
                  is_last_send_succeed := netOk,
                  last_state := some (curState s),
                  last_control_action_time := now },
              some (mkPayload last s))

/-- `_async_control_heating(time, force)`: activation, the
min-cycle-duration gate (only when `force` is set, no `time` marker is
present, a nonzero duration is configured and the device is active), then
the command sender. -/
def controlHeating (time : Option Rat) (force : Bool) (now : Rat)
    (netOk : Bool) (s : Ctrl) : Option (Ctrl × Option Payload) :=
  if !(activate s).active then
    some (activate s, none)
  else if force && time.isNone && minCycleTruthy (activate s).min_cycle_duration
      && isDeviceActive && !(longEnough now (activate s)) then
    some (activate s, none)
  else if isDeviceActive then
    commandSender now netOk (activate s)
  else
    some (activate s, none)

/-- `async_set_temperature`: no-op when no temperature is supplied,
otherwise set the target and run a forced re-evaluation. -/
def setTemperature (temperature : Option Rat) (now : Rat) (netOk : Bool)
    (s : Ctrl) : Option (Ctrl × Option Payload) :=
  match temperature with
  | none => some (s, none)
  | some t => controlHeating none true now netOk { s with target_temp := some t }

/-- Outcome of `async_set_hvac_mode`: `rejected s` is the logged-error
early return for an unrecognized mode (state `s` unchanged), `ok` carries
the new state and the payload sent (if any), `crash` the sender's
`AttributeError`. -/
inductive ModeOutcome where
  | rejected (s : Ctrl)
  | ok (s : Ctrl) (sent : Option Payload)
  | crash
  deriving DecidableEq, Repr

def liftOutcome : Option (Ctrl × Option Payload) → ModeOutcome
  | none => ModeOutcome.crash
  | some (s, p) => ModeOutcome.ok s p

/-- `async_set_hvac_mode`: HEAT, COOL and OFF set `_hvac_mode` and run a
forced re-evaluation; any other value logs an error and changes nothing. -/
def setHvacMode (m : HVACMode) (now : Rat) (netOk : Bool) (s : Ctrl) :
    ModeOutcome :=
  match m with
  | HVACMode.heat =>
      liftOutcome (controlHeating none true now netOk { s with hvac_mode := some HVACMode.heat })
  | HVACMode.cool =>
      liftOutcome (controlHeating none true now netOk { s with hvac_mode := some HVACMode.cool })
  | HVACMode.off =>
      liftOutcome (controlHeating none true now netOk { s with hvac_mode := some HVACMode.off })
  | _ => ModeOutcome.rejected s

/-- The payload sent by a `setHvacMode` call, if any. -/
def modeSent : ModeOutcome → Option Payload
  | ModeOutcome.ok _ p => p
  | _ => none

/-- `self._attr_preset_modes`: the sentinel "none" followed by the
configured preset names (`[PRESET_NONE, *presets.keys()]`, and
`[PRESET_NONE]` when no preset is configured). -/
def presetModes (s : Ctrl) : List String :=
  "none" :: s.presets.map Prod.fst

/-- First-match lookup in the preset table (`self._presets[name]`). -/
def lookupPreset : List (String × Rat) → String → Option Rat
  | [], _ => none
  | (k, v) :: rest, p => if p = k then some v else lookupPreset rest p

/-- Outcome of `async_set_preset_mode`: `invalid s` is the raised
`ValueError` (state `s` unchanged). -/
inductive PresetOutcome where
  | invalid (s : Ctrl)
  | ok (s : Ctrl) (sent : Option Payload)
  | crash
  deriving DecidableEq, Repr

def liftPreset : Option (Ctrl × Option Payload) → PresetOutcome
  | none => PresetOutcome.crash
  | some (s, p) => PresetOutcome.ok s p

/-- `async_set_preset_mode`: reject names outside `preset_modes`; same
preset is a no-op; "none" restores the saved target; a named preset saves
the current target when coming from "none" and installs the preset value;
both of the last two run a non-forced re-evaluation. -/
def setPresetMode (preset_mode : String) (now : Rat) (netOk : Bool)
    (s : Ctrl) : PresetOutcome :=
  if preset_mode ∈ presetModes s then
    if preset_mode = s.preset_mode then
      PresetOutcome.ok s none
    else if preset_mode = "none" then
      liftPreset (controlHeating none false now netOk
        { s with preset_mode := "none", target_temp := s.saved_target_temp })
    else
      let s1 := if s.preset_mode = "none"
                then { s with saved_target_temp := s.target_temp } else s
      liftPreset (controlHeating none false now netOk
        { s1 with preset_mode := preset_mode,
                  target_temp := lookupPreset s1.presets preset_mode })
  else
    PresetOutcome.invalid s

/-- The keep-alive timer callback: `_async_control_heating(now)` — the
`time` marker is present and `force` keeps its default `False`. -/
def keepAliveTick (now : Rat) (netOk : Bool) (s : Ctrl) :
    Option (Ctrl × Option Payload) :=
  controlHeating (some now) false now netOk s

/-- The `hvac_action` property. -/
def hvacAction (s : Ctrl) : HVACAction :=
  if !s.is_last_send_succeed then HVACAction.idle
  else if s.hvac_mode = some HVACMode.heat then HVACAction.heating
  else if s.hvac_mode = some HVACMode.cool then HVACAction.cooling
  else HVACAction.off

/-- The persisted old state consulted in `async_added_to_hass`: the
restored `ATTR_TEMPERATURE` attribute, the restored `ATTR_PRESET_MODE`
attribute, and the restored entity state parsed as an HVAC mode (`none`
for an absent or empty state string). -/
structure OldState where
  attr_temperature : Option Rat
  attr_preset_mode : Option String
  state : Option HVACMode
  deriving DecidableEq, Repr

/-- `DEFAULT_TARGET_TEMPERATURE`. -/
def DEFAULT_TARGET_TEMPERATURE : Rat := 24

/-- The restore part of `async_added_to_hass` (before `_last_state` is
initialized): fill in the target temperature from the old state or the
default, restore a known preset name, restore the HVAC mode when unset,
then default the mode to OFF. -/
def restoreStep (old : Option OldState) (s : Ctrl) : Ctrl :=
  let s1 :=
    match old with
    | some o =>
        let restoredTemp : Rat :=
          match o.attr_temperature with
          | none => DEFAULT_TARGET_TEMPERATURE
          | some t => t
        let sa :=
          if s.target_temp = none then { s with target_temp := some restoredTemp }
          else s
        let sb :=
          match o.attr_preset_mode with
          | some p => if p ∈ presetModes sa then { sa with preset_mode := p } else sa
          | none => sa
        (match sb.hvac_mode, o.state with
         | none, some m => { sb with hvac_mode := some m }
         | _, _ => sb)
    | none =>
        if s.target_temp = none then
          { s with target_temp := some DEFAULT_TARGET_TEMPERATURE }
        else s
  if s1.hvac_mode = none then { s1 with hvac_mode := some HVACMode.off } else s1

/-- `async_added_to_hass`: restore, then
`self._last_state = ACState(self.target_temperature, self.hvac_mode)`. -/
def addedToHass (old : Option OldState) (s : Ctrl) : Ctrl :=
  let s2 := restoreStep old s
  { s2 with last_state := some (curState s2) }

/-- Configuration passed to `__init__` (the fields the claims depend on). -/
structure Config where
  target_temp : Option Rat
  initial_hvac_mode : Option HVACMode
  min_cycle_duration : Option Rat
  presets : List (String × Rat)
  deriving DecidableEq, Repr

/-- Python truthiness of an optional float (`None` and `0` are falsy),
used by `target_temp or next(iter(presets.values()), None)`. -/
def pyTruthy : Option Rat → Bool
  | none => false
  | some t => decide (t ≠ 0)

/-- `__init__` at construction time `now`: inactive, preset "none",
`_last_state = None`, `_is_last_send_succeed = False`, and
`_last_control_action_time = datetime.now()`. -/
def initCtrl (cfg : Config) (now : Rat) : Ctrl :=
  { active := false
    target_temp := cfg.target_temp
    hvac_mode := cfg.initial_hvac_mode
    preset_mode := "none"
    saved_target_temp :=
      if pyTruthy cfg.target_temp then cfg.target_temp
      else cfg.presets.head?.map Prod.snd
    presets := cfg.presets
    min_cycle_duration := cfg.min_cycle_duration
    last_state := none
    last_control_action_time := now
    is_last_send_succeed := false }

/-! ### Basic lemmas about the embedding -/

lemma activate_target (s : Ctrl) : (activate s).target_temp = s.target_temp := by
  unfold activate; split <;> rfl

lemma activate_hvac (s : Ctrl) : (activate s).hvac_mode = s.hvac_mode := by
  unfold activate; split <;> rfl

lemma activate_preset (s : Ctrl) : (activate s).preset_mode = s.preset_mode := by
  unfold activate; split <;> rfl

lemma activate_saved (s : Ctrl) : (activate s).saved_target_temp = s.saved_target_temp := by
  unfold activate; split <;> rfl

lemma activate_presets (s : Ctrl) : (activate s).presets = s.presets := by
  unfold activate; split <;> rfl

lemma activate_mcd (s : Ctrl) : (activate s).min_cycle_duration = s.min_cycle_duration := by
  unfold activate; split <;> rfl

lemma activate_last (s : Ctrl) : (activate s).last_state = s.last_state := by
  unfold activate; split <;> rfl

lemma activate_time (s : Ctrl) :
    (activate s).last_control_action_time = s.last_control_action_time := by
  unfold activate; split <;> rfl

lemma activate_flag (s : Ctrl) :
    (activate s).is_last_send_succeed = s.is_last_send_succeed := by
  unfold activate; split <;> rfl

lemma activate_of_active {s : Ctrl} (h : s.active = true) : activate s = s := by
  unfold activate; rw [h]; rfl

lemma curState_activate (s : Ctrl) : curState (activate s) = curState s := by
  unfold curState; rw [activate_target, activate_hvac]

/-- The sender does nothing when the logical state equals `_last_state`. -/
lemma commandSender_same (now : Rat) (ok : Bool) (s : Ctrl)
    (h : s.last_state = some (curState s)) :
    commandSender now ok s = some (s, none) := by
  unfold commandSender; rw [if_pos h]

/-- What any successful sender run preserves and updates. -/
lemma commandSender_spec (now : Rat) (ok : Bool) (s s' : Ctrl) (p : Option Payload)
    (h : commandSender now ok s = some (s', p)) :
    s'.target_temp = s.target_temp ∧
    s'.hvac_mode = s.hvac_mode ∧
    s'.preset_mode = s.preset_mode ∧
    s'.saved_target_temp = s.saved_target_temp ∧
    s'.presets = s.presets ∧
    s'.min_cycle_duration = s.min_cycle_duration ∧
    (p = none → s' = s) ∧
    (∀ q, p = some q →
        s'.last_state = some (curState s) ∧
        s'.last_control_action_time = now ∧
        s'.is_last_send_succeed = ok) := by
  unfold commandSender at h
  split at h
  · simp only [Option.some.injEq, Prod.mk.injEq] at h
    obtain ⟨h1, h2⟩ := h
    subst h1; subst h2
    exact ⟨rfl, rfl, rfl, rfl, rfl, rfl, fun _ => rfl,
      fun q hq => Option.noConfusion hq⟩
  · split at h
    · exact Option.noConfusion h
    · simp only [Option.some.injEq, Prod.mk.injEq] at h
      obtain ⟨h1, h2⟩ := h
      subst h1; subst h2
      exact ⟨rfl, rfl, rfl, rfl, rfl, rfl,
        fun hc => Option.noConfusion hc,
        fun q _ => ⟨rfl, rfl, rfl⟩⟩

/-- A re-evaluation is either a silent early return or a sender run on the
activated state. -/
lemma controlHeating_cases (time : Option Rat) (force : Bool) (now : Rat)
    (ok : Bool) (s : Ctrl) :
    controlHeating time force now ok s = some (activate s, none) ∨
    controlHeating time force now ok s = commandSender now ok (activate s) := by
  unfold controlHeating
  split
  · exact Or.inl rfl
  · split
    · exact Or.inl rfl
    · split
      · exact Or.inr rfl
      · exact Or.inl rfl

/-- What any non-crashing re-evaluation preserves and updates. -/
lemma controlHeating_spec (time : Option Rat) (force : Bool) (now : Rat)
    (ok : Bool) (s s' : Ctrl) (p : Option Payload)
    (h : controlHeating time force now ok s = some (s', p)) :
    s'.target_temp = s.target_temp ∧
    s'.hvac_mode = s.hvac_mode ∧
    s'.preset_mode = s.preset_mode ∧
    s'.saved_target_temp = s.saved_target_temp ∧
    s'.presets = s.presets ∧
    s'.min_cycle_duration = s.min_cycle_duration ∧
    (p = none → s'.last_state = s.last_state ∧
        s'.last_control_action_time = s.last_control_action_time) ∧
    (∀ q, p = some q →
        s'.last_state = some (curState s') ∧ s'.is_last_send_succeed = ok) := by
  rcases controlHeating_cases time force now ok s with hc | hc
  · rw [hc] at h
    simp only [Option.some.injEq, Prod.mk.injEq] at h
    obtain ⟨h1, h2⟩ := h
    subst h1; subst h2
    exact ⟨activate_target s, activate_hvac s, activate_preset s, activate_saved s,
      activate_presets s, activate_mcd s,
      fun _ => ⟨activate_last s, activate_time s⟩,
      fun q hq => Option.noConfusion hq⟩
  · rw [hc] at h
    obtain ⟨ht, hm, hpm, hsv, hps, hmc, hnone, hsome⟩ :=
      commandSender_spec now ok (activate s) s' p h
    have hcur : curState s' = curState s := by
      unfold curState
      rw [ht, hm, activate_target, activate_hvac]
    refine ⟨ht.trans (activate_target s), hm.trans (activate_hvac s),
      hpm.trans (activate_preset s), hsv.trans (activate_saved s),
      hps.trans (activate_presets s), hmc.trans (activate_mcd s), ?_, ?_⟩
    · intro hp0
      have he := hnone hp0
      rw [he]
      exact ⟨activate_last s, activate_time s⟩
    · intro q hq
      obtain ⟨hls, _, hflag⟩ := hsome q hq
      rw [hls, curState_activate, hcur]
      exact ⟨rfl, hflag⟩

/-- When the logical state equals `_last_state`, any re-evaluation is a
no-op apart from possibly setting the activation flag. -/
lemma controlHeating_self_noop {s : Ctrl} (time : Option Rat) (force : Bool)
    (now : Rat) (ok : Bool) (h : s.last_state = some (curState s)) :
    controlHeating time force now ok s = some (activate s, none) := by
  rcases controlHeating_cases time force now ok s with hc | hc
  · exact hc
  · rw [hc]
    have h2 : (activate s).last_state = some (curState (activate s)) := by
      rw [activate_last, curState_activate]; exact h
    rw [commandSender_same now ok (activate s) h2]

/-- A forced, user-triggered re-evaluation within the configured minimum
cycle duration is suppressed. -/
lemma controlHeating_gated (now : Rat) (ok : Bool) (s : Ctrl) (D : Rat)
    (hD : s.min_cycle_duration = some D) (hpos : 0 < D)
    (hlt : ¬(now - s.last_control_action_time > D)) :
    controlHeating none true now ok s = some (activate s, none) := by
  have h1 : minCycleTruthy (activate s).min_cycle_duration = true := by
    rw [activate_mcd, hD]
    exact decide_eq_true (ne_of_gt hpos)
  have h2 : longEnough now (activate s) = false := by
    unfold longEnough
    rw [activate_mcd, hD, activate_time]
    exact decide_eq_false hlt
  unfold controlHeating
  split
  · rfl
  · split
    · rfl
    · rename_i hne
      exact (hne (by simp [h1, h2, isDeviceActive])).elim

/-- Membership of a successfully looked-up preset name. -/
lemma lookupPreset_mem {l : List (String × Rat)} {p : String} {v : Rat}
    (h : lookupPreset l p = some v) : p ∈ l.map Prod.fst := by
  induction l with
  | nil => exact Option.noConfusion h
  | cons kv rest ih =>
      unfold lookupPreset at h
      by_cases hk : p = kv.1
      · simp [hk]
      · rw [if_neg hk] at h
        simp [ih h]

/-! ### Concrete example states used by witnesses and counterexamples -/

/-- An active controller whose logical state equals its last-sent state. -/
def exBase : Ctrl :=
  { active := true, target_temp := some 24, hvac_mode := some HVACMode.cool,
    preset_mode := "none", saved_target_temp := some 24,
    presets := [("eco", 18)], min_cycle_duration := none,
    last_state := some ⟨some 24, some HVACMode.cool⟩,
    last_control_action_time := 0, is_last_send_succeed := true }

/-- An active controller with `min_cycle_duration = 5`, last action at
time 0, and a pending target-temperature change (25 vs last-sent 24). -/
def exGate : Ctrl :=
  { active := true, target_temp := some 25, hvac_mode := some HVACMode.heat,
    preset_mode := "none", saved_target_temp := some 25, presets := [],
    min_cycle_duration := some 5,
    last_state := some ⟨some 24, some HVACMode.heat⟩,
    last_control_action_time := 0, is_last_send_succeed := true }

/-- `exBase` after a failed send attempt. -/
def exFail : Ctrl :=
  { exBase with is_last_send_succeed := false }

/-- `exGate` after a forced re-evaluation at time 10 whose send failed:
the last-sent state and the action time are updated anyway, only the
success flag records the failure. -/
def exGateAfter : Ctrl :=
  { active := true, target_temp := some 25, hvac_mode := some HVACMode.heat,
    preset_mode := "none", saved_target_temp := some 25, presets := [],
    min_cycle_duration := some 5,
    last_state := some ⟨some 25, some HVACMode.heat⟩,
    last_control_action_time := 10, is_last_send_succeed := false }

/-- The payload sent for `exGate`: HEAT stays on, target 25. -/
def exPayload : Payload :=
  { power_toggle := false, power := true, mode := "HEAT_MODE",
    fan := "FAN_AUTO", temperature := some 25 }

/-- The round-trip start state: preset "none", target 22, "eco" = 18. -/
def c7s0 : Ctrl :=
  { active := true, target_temp := some 22, hvac_mode := some HVACMode.heat,
    preset_mode := "none", saved_target_temp := some 22,
    presets := [("eco", 18)], min_cycle_duration := none,
    last_state := some ⟨some 22, some HVACMode.heat⟩,
    last_control_action_time := 0, is_last_send_succeed := true }

/-- `c7s0` after `set_preset_mode("eco")` at time 5. -/
def c7s1 : Ctrl :=
  { active := true, target_temp := some 18, hvac_mode := some HVACMode.heat,
    preset_mode := "eco", saved_target_temp := some 22,
    presets := [("eco", 18)], min_cycle_duration := none,
    last_state := some ⟨some 18, some HVACMode.heat⟩,
    last_control_action_time := 5, is_last_send_succeed := true }

/-- `c7s1` after `set_preset_mode("none")` at time 6. -/
def c7s2 : Ctrl :=
  { active := true, target_temp := some 22, hvac_mode := some HVACMode.heat,
    preset_mode := "none", saved_target_temp := some 22,
    presets := [("eco", 18)], min_cycle_duration := none,
    last_state := some ⟨some 22, some HVACMode.heat⟩,
    last_control_action_time := 6, is_last_send_succeed := true }

/-- The configuration used by the construction-time gating witness. -/
def exCfg : Config :=
  { target_temp := some 22, initial_hvac_mode := none,
    min_cycle_duration := some 5, presets := [("eco", 18)] }

/-! ### Unfolding lemmas for `setPresetMode` -/

/-- Switching from "none" to a different configured preset `p` saves the
current target and installs the preset value, then re-evaluates
non-forced. -/
lemma setPresetMode_engage (p : String) (now : Rat) (ok : Bool) (s : Ctrl)
    (hmem : p ∈ presetModes s) (hne1 : p ≠ s.preset_mode) (hne2 : p ≠ "none")
    (hfrom : s.preset_mode = "none") :
    setPresetMode p now ok s =
      liftPreset (controlHeating none false now ok
        { s with saved_target_temp := s.target_temp, preset_mode := p,
                 target_temp := lookupPreset s.presets p }) := by
  unfold setPresetMode
  rw [if_pos hmem, if_neg hne1, if_neg hne2, if_pos hfrom]

/-- Switching back to "none" from a different preset restores the saved
target, then re-evaluates non-forced. -/
lemma setPresetMode_none (now : Rat) (ok : Bool) (s : Ctrl)
    (hne : ("none" : String) ≠ s.preset_mode) :
    setPresetMode "none" now ok s =
      liftPreset (controlHeating none false now ok
        { s with preset_mode := "none", target_temp := s.saved_target_temp }) := by
  unfold setPresetMode
  rw [if_pos (show ("none" : String) ∈ presetModes s from
        List.mem_cons_self "none" (s.presets.map Prod.fst)),
    if_neg hne, if_pos rfl]

/-! ### Claim theorems -/

/-- Claim C1: with `min_cycle_duration = D` configured and the device
considered active, a forced re-evaluation with no time marker that occurs
when less than `D` has elapsed since the last action time sends no
command; a forced re-evaluation more than `D` after the last action time,
with the current logical state differing from the last-sent state, does
send the command. -/
theorem spec_min_cycle_gating (s : Ctrl) (D now1 now2 : Rat) (ok1 ok2 : Bool)
    (hD : s.min_cycle_duration = some D) (hpos : 0 < D) :
    (now1 - s.last_control_action_time < D →
        controlHeating none true now1 ok1 s = some (activate s, none)) ∧
    (∀ l, s.active = true → s.last_state = some l →
        ACState.mk s.target_temp s.hvac_mode ≠ l →
        now2 - s.last_control_action_time > D →
        ∃ s2 p, controlHeating none true now2 ok2 s = some (s2, some p)) := by
  constructor
  · intro hlt
    exact controlHeating_gated now1 ok1 s D hD hpos (by linarith)
  · intro l hact hlast hne hgt
    have ha : activate s = s := activate_of_active hact
    have hle : longEnough now2 s = true := by
      unfold longEnough
      rw [hD]
      exact decide_eq_true hgt
    unfold controlHeating
    rw [ha]
    split
    · rename_i hc
      rw [hact] at hc
      simp at hc
    · split
      · rename_i hgate
        rw [hle] at hgate
        simp at hgate
      · split
        · unfold commandSender
          rw [hlast, if_neg (show ¬(some l = some (curState s)) from
            fun hcc => hne (Option.some.inj hcc).symm)]
          exact ⟨_, _, rfl⟩
        · rename_i hdev
          exact (hdev (by simp [isDeviceActive])).elim

/-- Witness for C1 at `exGate`: `D = 5`, last action at time 0, a forced
re-evaluation at time 3 is suppressed and one at time 6 (with the target
temperature changed) sends. -/
theorem spec_min_cycle_gating_witness :
    controlHeating none true 3 true exGate = some (activate exGate, none) ∧
    ∃ s2 p, controlHeating none true 6 true exGate = some (s2, some p) := by
  obtain ⟨hA, hB⟩ := spec_min_cycle_gating exGate 5 3 6 true true rfl (by norm_num)
  exact ⟨hA (by norm_num [exGate]),
    hB ⟨some 24, some HVACMode.heat⟩ rfl rfl (by simp [exGate]) (by norm_num [exGate])⟩

/-- Claim C2: when the current logical state equals the last-sent state, a
re-evaluation performs no network call and leaves the last-sent state and
the last action timestamp unchanged; and any two consecutive
re-evaluations (with no intervening state change) perform at most one
network call. -/
theorem spec_idempotent_reeval (s : Ctrl)
    (h : s.last_state = some ⟨s.target_temp, s.hvac_mode⟩) :
    (∀ time force now ok, ∃ s1,
        controlHeating time force now ok s = some (s1, none) ∧
        s1.last_state = s.last_state ∧
        s1.last_control_action_time = s.last_control_action_time) ∧
    (∀ (t t1 t2 : Ctrl) (time1 time2 : Option Rat) (force1 force2 : Bool)
        (now1 now2 : Rat) (ok1 ok2 : Bool) (p1 p2 : Option Payload),
        controlHeating time1 force1 now1 ok1 t = some (t1, p1) →
        controlHeating time2 force2 now2 ok2 t1 = some (t2, p2) →
        p1 = none ∨ p2 = none) := by
  constructor
  · intro time force now ok
    exact ⟨activate s, controlHeating_self_noop time force now ok h,
      activate_last s, activate_time s⟩
  · intro t t1 t2 time1 time2 force1 force2 now1 now2 ok1 ok2 p1 p2 h1 h2
    cases p1 with
    | none => exact Or.inl rfl
    | some q =>
        right
        have hls : t1.last_state = some (curState t1) :=
          ((controlHeating_spec time1 force1 now1 ok1 t t1 (some q) h1).2.2.2.2.2.2.2
            q rfl).1
        rw [controlHeating_self_noop time2 force2 now2 ok2 hls] at h2
        simp only [Option.some.injEq, Prod.mk.injEq] at h2
        exact h2.2.symm

/-- Witness for C2 at `exBase`, whose logical state equals its last-sent
state: a forced re-evaluation at time 7 makes no network call and keeps
the last-sent state and the timestamp. -/
theorem spec_idempotent_reeval_witness :
    ∃ s1, controlHeating none true 7 true exBase = some (s1, none) ∧
      s1.last_state = exBase.last_state ∧
      s1.last_control_action_time = exBase.last_control_action_time := by
  exact (spec_idempotent_reeval exBase rfl).1 none true 7 true

/-- Claim C5: `hvac_action` is IDLE whenever the last send attempt did not
succeed; when it succeeded, it is HEATING for HEAT, COOLING for COOL and
OFF otherwise. -/
theorem spec_hvac_action (s : Ctrl) :
    (s.is_last_send_succeed = false → hvacAction s = HVACAction.idle) ∧
    (s.is_last_send_succeed = true →
        hvacAction s =
          (if s.hvac_mode = some HVACMode.heat then HVACAction.heating
           else if s.hvac_mode = some HVACMode.cool then HVACAction.cooling
           else HVACAction.off)) := by
  constructor <;> intro h <;> unfold hvacAction <;> rw [h] <;> simp

/-- Witness for C5 at `exFail` (COOL mode, failed last send): IDLE. -/
theorem spec_hvac_action_witness :
    hvacAction exFail = HVACAction.idle := by
  exact (spec_hvac_action exFail).1 rfl

/-- Claim C6: a preset name outside the configured names and the sentinel
"none" makes `set_preset_mode` raise a validation error with the whole
controller state unchanged (no re-evaluation, no network call). -/
theorem spec_invalid_preset_rejected (p : String) (now : Rat) (ok : Bool)
    (s : Ctrl) (h : p ∉ presetModes s) :
    setPresetMode p now ok s = PresetOutcome.invalid s := by
  unfold setPresetMode
  rw [if_neg h]

/-- Witness for C6: `set_preset_mode("bogus")` with only "eco" configured. -/
theorem spec_invalid_preset_rejected_witness :
    setPresetMode "bogus" 0 true exBase = PresetOutcome.invalid exBase := by
  exact spec_invalid_preset_rejected "bogus" 0 true exBase (by decide)

/-- Claim C8: any HVAC mode outside HEAT, COOL and OFF is rejected by
`set_hvac_mode` with a logged error and no state change, re-evaluation or
network call. -/
theorem spec_invalid_hvac_mode_rejected (m : HVACMode) (now : Rat) (ok : Bool)
    (s : Ctrl) (h1 : m ≠ HVACMode.heat) (h2 : m ≠ HVACMode.cool)
    (h3 : m ≠ HVACMode.off) :
    setHvacMode m now ok s = ModeOutcome.rejected s := by
  cases m
  · exact absurd rfl h1
  · exact absurd rfl h2
  · exact absurd rfl h3
  · rfl
  · rfl
  · rfl
  · rfl

/-- Witness for C8 at the DRY mode. -/
theorem spec_invalid_hvac_mode_rejected_witness :
    setHvacMode HVACMode.dry 0 true exBase = ModeOutcome.rejected exBase := by
  exact spec_invalid_hvac_mode_rejected HVACMode.dry 0 true exBase
    (by decide) (by decide) (by decide)

/-- Claim C9: `async_added_to_hass` initializes the last-sent state to the
current (target temperature, hvac mode) pair, so any first re-evaluation
after startup performs no network call. -/
theorem spec_startup_no_resend (old : Option OldState) (s : Ctrl) :
    (addedToHass old s).last_state =
      some ⟨(addedToHass old s).target_temp, (addedToHass old s).hvac_mode⟩ ∧
    ∀ time force now ok, ∃ s1,
      controlHeating time force now ok (addedToHass old s) = some (s1, none) := by
  have hls : (addedToHass old s).last_state =
      some (curState (addedToHass old s)) := rfl
  exact ⟨hls, fun time force now ok =>
    ⟨activate (addedToHass old s),
      controlHeating_self_noop time force now ok hls⟩⟩

/-- Claim C3 counterexample: at `exGate`, a forced re-evaluation at time
10 sends `exPayload` and the network outcome fails, yet the last-sent
state is updated to the desired state; the next keep-alive tick, with the
desired state unchanged since that send, performs no network call — the
keep-alive tick does not re-send after the failed send. -/
theorem keep_alive_no_retry_counterexample :
    controlHeating none true 10 false exGate =
      some (exGateAfter, some exPayload) ∧
    exGateAfter.is_last_send_succeed = false ∧
    exGateAfter.target_temp = exGate.target_temp ∧
    exGateAfter.hvac_mode = exGate.hvac_mode ∧
    keepAliveTick 20 true exGateAfter = some (exGateAfter, none) := by
  refine ⟨?_, rfl, rfl, rfl, ?_⟩
  · simp [controlHeating, activate, exGate, commandSender, curState, mkPayload,
      minCycleTruthy, longEnough, isDeviceActive, exGateAfter, exPayload]
    norm_num
  · simp [keepAliveTick, controlHeating, activate, exGateAfter, commandSender,
      curState, minCycleTruthy, longEnough, isDeviceActive]

/-- Claim C3 (amended): after a send whose network outcome failed, the
last-sent state has nevertheless been updated to the desired state, so
with the desired state unchanged the next keep-alive tick performs no
network call (there is no retry); the keep-alive tick re-sends, without
any user action, exactly when the current desired state differs from the
last-sent state (for example a change suppressed by min-cycle gating). -/
theorem keep_alive_resend_behavior (s s1 : Ctrl) (p : Payload)
    (now1 now2 now3 : Rat) (ok2 ok3 : Bool) (t : Ctrl) (l : ACState)
    (hsend : controlHeating none true now1 false s = some (s1, some p)) :
    s1.is_last_send_succeed = false ∧
    s1.last_state = some ⟨s1.target_temp, s1.hvac_mode⟩ ∧
    (∃ s2, keepAliveTick now2 ok2 s1 = some (s2, none)) ∧
    (t.active = true → t.last_state = some l →
        ACState.mk t.target_temp t.hvac_mode ≠ l →
        ∃ t2 q, keepAliveTick now3 ok3 t = some (t2, some q)) := by
  obtain ⟨hls, hflag⟩ :=
    (controlHeating_spec none true now1 false s s1 (some p) hsend).2.2.2.2.2.2.2
      p rfl
  refine ⟨hflag, hls, ?_, ?_⟩
  · exact ⟨activate s1,
      controlHeating_self_noop (some now2) false now2 ok2 hls⟩
  · intro hact hlast hne
    have ha : activate t = t := activate_of_active hact
    unfold keepAliveTick controlHeating
    rw [ha]
    split
    · rename_i hc
      rw [hact] at hc
      simp at hc
    · split
      · rename_i hgate
        simp at hgate
      · split
        · unfold commandSender
          rw [hlast, if_neg (show ¬(some l = some (curState t)) from
            fun hcc => hne (Option.some.inj hcc).symm)]
          exact ⟨_, _, rfl⟩
        · rename_i hdev
          exact (hdev (by simp [isDeviceActive])).elim

/-- Witness for the amended C3 at the concrete failed send of `exGate`. -/
theorem keep_alive_resend_behavior_witness :
    exGateAfter.is_last_send_succeed = false ∧
    exGateAfter.last_state =
      some ⟨exGateAfter.target_temp, exGateAfter.hvac_mode⟩ ∧
    (∃ s2, keepAliveTick 20 true exGateAfter = some (s2, none)) ∧
    (exGate.active = true →
        exGate.last_state = some (ACState.mk (some 24) (some HVACMode.heat)) →
        ACState.mk exGate.target_temp exGate.hvac_mode ≠
          ACState.mk (some 24) (some HVACMode.heat) →
        ∃ t2 q, keepAliveTick 30 true exGate = some (t2, some q)) := by
  exact keep_alive_resend_behavior exGate exGateAfter exPayload 10 20 30
    true true exGate (ACState.mk (some 24) (some HVACMode.heat))
    (by simp [controlHeating, activate, exGate, commandSender, curState,
          mkPayload, minCycleTruthy, longEnough, isDeviceActive, exGateAfter,
          exPayload]
        norm_num)

/-- Claim C4: every sent payload has `power_toggle` true iff exactly one
of the previous last-sent mode and the current mode is OFF, `power` iff
the current mode is not OFF, mode code COOL_MODE exactly for COOL (and
HEAT_MODE otherwise, OFF included), the fixed fan value, and the current
target temperature. -/
theorem spec_payload_construction (s s' : Ctrl) (last : ACState) (p : Payload)
    (now : Rat) (ok : Bool) (hl : s.last_state = some last)
    (h : commandSender now ok s = some (s', some p)) :
    (p.power_toggle = true ↔
        ((last.mode = some HVACMode.off ∧ s.hvac_mode ≠ some HVACMode.off) ∨
         (last.mode ≠ some HVACMode.off ∧ s.hvac_mode = some HVACMode.off))) ∧
    (p.power = true ↔ s.hvac_mode ≠ some HVACMode.off) ∧
    p.mode = (if s.hvac_mode = some HVACMode.cool
              then "COOL_MODE" else "HEAT_MODE") ∧
    p.fan = "FAN_AUTO" ∧
    p.temperature = s.target_temp := by
  unfold commandSender at h
  split at h
  · simp at h
  · split at h
    · exact Option.noConfusion h
    · rename_i last2 heq
      have hll : last = last2 := Option.some.inj (hl.symm.trans heq)
      subst hll
      simp only [Option.some.injEq, Prod.mk.injEq] at h
      obtain ⟨h1, h2⟩ := h
      subst h2
      refine ⟨?_, ?_, rfl, rfl, rfl⟩
      · simp [mkPayload]
      · simp [mkPayload]

/-- Witness for C4: the payload sent from `exGate` (HEAT with last-sent
mode HEAT, target 25). -/
theorem spec_payload_construction_witness :
    (exPayload.power_toggle = true ↔
        (((ACState.mk (some 24) (some HVACMode.heat)).mode = some HVACMode.off ∧
            exGate.hvac_mode ≠ some HVACMode.off) ∨
         ((ACState.mk (some 24) (some HVACMode.heat)).mode ≠ some HVACMode.off ∧
            exGate.hvac_mode = some HVACMode.off))) ∧
    (exPayload.power = true ↔ exGate.hvac_mode ≠ some HVACMode.off) ∧
    exPayload.mode = (if exGate.hvac_mode = some HVACMode.cool
                      then "COOL_MODE" else "HEAT_MODE") ∧
    exPayload.fan = "FAN_AUTO" ∧
    exPayload.temperature = exGate.target_temp := by
  refine spec_payload_construction exGate
    { exGate with is_last_send_succeed := true,
                  last_state := some ⟨some 25, some HVACMode.heat⟩,
                  last_control_action_time := 3 }
    (ACState.mk (some 24) (some HVACMode.heat)) exPayload 3 true rfl ?_
  simp [commandSender, exGate, curState, mkPayload, exPayload]

/-- Claim C7: from preset "none" with target `T`, engaging a configured
preset `p` (table value `v`) saves `T` and sets the target to `v`;
switching back to "none" restores the target to `T`. -/
theorem spec_preset_round_trip (s s1 s2 : Ctrl) (T v : Rat) (p : String)
    (now1 now2 : Rat) (ok1 ok2 : Bool) (sent1 sent2 : Option Payload)
    (hpm : s.preset_mode = "none") (hT : s.target_temp = some T)
    (hp : lookupPreset s.presets p = some v) (hpn : p ≠ "none")
    (h1 : setPresetMode p now1 ok1 s = PresetOutcome.ok s1 sent1)
    (h2 : setPresetMode "none" now2 ok2 s1 = PresetOutcome.ok s2 sent2) :
    s1.saved_target_temp = some T ∧ s1.target_temp = some v ∧
    s2.target_temp = some T := by
  have hmem : p ∈ presetModes s :=
    List.mem_cons_of_mem _ (lookupPreset_mem hp)
  have hne1 : p ≠ s.preset_mode := by rw [hpm]; exact hpn
  rw [setPresetMode_engage p now1 ok1 s hmem hne1 hpn hpm] at h1
  rcases hc1 : controlHeating none false now1 ok1
      { s with saved_target_temp := s.target_temp, preset_mode := p,
               target_temp := lookupPreset s.presets p } with _ | ⟨t1, q1⟩
  · rw [hc1] at h1
    simp [liftPreset] at h1
  · rw [hc1] at h1
    simp only [liftPreset, PresetOutcome.ok.injEq] at h1
    obtain ⟨h1a, h1b⟩ := h1
    rw [h1a] at hc1
    obtain ⟨hft, hfm, hfp, hfs, hfps, _, _, _⟩ :=
      controlHeating_spec _ _ _ _ _ _ _ hc1
    have hsaved : s1.saved_target_temp = some T := hfs.trans hT
    have htarget : s1.target_temp = some v := hft.trans hp
    have hne2 : ("none" : String) ≠ s1.preset_mode := by
      rw [show s1.preset_mode = p from hfp]
      exact fun hc => hpn hc.symm
    rw [setPresetMode_none now2 ok2 s1 hne2] at h2
    rcases hc2 : controlHeating none false now2 ok2
        { s1 with preset_mode := "none",
                  target_temp := s1.saved_target_temp } with _ | ⟨t2, q2⟩
    · rw [hc2] at h2
      simp [liftPreset] at h2
    · rw [hc2] at h2
      simp only [liftPreset, PresetOutcome.ok.injEq] at h2
      obtain ⟨h2a, h2b⟩ := h2
      rw [h2a] at hc2
      obtain ⟨hgt, _⟩ := controlHeating_spec _ _ _ _ _ _ _ hc2
      exact ⟨hsaved, htarget, hgt.trans hsaved⟩

/-- Witness for C7 at the concrete 22 / eco=18 round trip. -/
theorem spec_preset_round_trip_witness :
    c7s1.saved_target_temp = some 22 ∧ c7s1.target_temp = some 18 ∧
    c7s2.target_temp = some 22 := by
  have h1 : setPresetMode "eco" 5 true c7s0 =
      PresetOutcome.ok c7s1 (some ⟨false, true, "HEAT_MODE", "FAN_AUTO", some 18⟩) := by
    simp [setPresetMode, presetModes, liftPreset, lookupPreset, controlHeating,
      activate, commandSender, curState, mkPayload, minCycleTruthy, longEnough,
      isDeviceActive, c7s0, c7s1]
  have h2 : setPresetMode "none" 6 true c7s1 =
      PresetOutcome.ok c7s2 (some ⟨false, true, "HEAT_MODE", "FAN_AUTO", some 22⟩) := by
    simp [setPresetMode, presetModes, liftPreset, lookupPreset, controlHeating,
      activate, commandSender, curState, mkPayload, minCycleTruthy, longEnough,
      isDeviceActive, c7s1, c7s2]
  exact spec_preset_round_trip c7s0 c7s1 c7s2 22 18 "eco" 5 6 true true
    (some ⟨false, true, "HEAT_MODE", "FAN_AUTO", some 18⟩)
    (some ⟨false, true, "HEAT_MODE", "FAN_AUTO", some 22⟩)
    rfl rfl (by simp [lookupPreset, c7s0]) (by simp) h1 h2

/-- Claim C10: `__init__` sets the last action timestamp to the
construction time although nothing has been sent, so with
`min_cycle_duration = D` configured, a forced user operation
(`set_temperature` or `set_hvac_mode`) less than `D` after construction
never sends a command. -/
theorem spec_construction_gating_clock (cfg : Config) (t0 now : Rat) (D : Rat)
    (ok : Bool) (hD : cfg.min_cycle_duration = some D) (hpos : 0 < D)
    (hlt : now - t0 < D) :
    (initCtrl cfg t0).last_control_action_time = t0 ∧
    (initCtrl cfg t0).last_state = none ∧
    (∀ temp r, setTemperature temp now ok (initCtrl cfg t0) = some r →
        r.2 = none) ∧
    (∀ m, modeSent (setHvacMode m now ok (initCtrl cfg t0)) = none) := by
  have hgen : ∀ s' : Ctrl, s'.min_cycle_duration = some D →
      s'.last_control_action_time = t0 →
      controlHeating none true now ok s' = some (activate s', none) := by
    intro s' h1 h2
    exact controlHeating_gated now ok s' D h1 hpos (by rw [h2]; linarith)
  refine ⟨rfl, rfl, ?_, ?_⟩
  · intro temp r hr
    cases temp with
    | none =>
        unfold setTemperature at hr
        rw [← Option.some.inj hr]
    | some t =>
        have heq := hgen { initCtrl cfg t0 with target_temp := some t } hD rfl
        have hr2 : some ((activate
            { initCtrl cfg t0 with target_temp := some t }), none) = some r :=
          heq.symm.trans hr
        rw [← Option.some.inj hr2]
  · intro m
    cases m
    case heat =>
        show modeSent (liftOutcome (controlHeating none true now ok
          { initCtrl cfg t0 with hvac_mode := some HVACMode.heat })) = none
        rw [hgen _ hD rfl]
        rfl
    case cool =>
        show modeSent (liftOutcome (controlHeating none true now ok
          { initCtrl cfg t0 with hvac_mode := some HVACMode.cool })) = none
        rw [hgen _ hD rfl]
        rfl
    case off =>
        show modeSent (liftOutcome (controlHeating none true now ok
          { initCtrl cfg t0 with hvac_mode := some HVACMode.off })) = none
        rw [hgen _ hD rfl]
        rfl
    case auto => rfl
    case dry => rfl
    case fanOnly => rfl
    case heatCool => rfl

/-- Witness for C10: `exCfg` built at time 0, user operations at time 3
with `D = 5` send nothing. -/
theorem spec_construction_gating_clock_witness :
    (initCtrl exCfg 0).last_control_action_time = 0 ∧
    (initCtrl exCfg 0).last_state = none ∧
    (∀ temp r, setTemperature temp 3 true (initCtrl exCfg 0) = some r →
        r.2 = none) ∧
    (∀ m, modeSent (setHvacMode m 3 true (initCtrl exCfg 0)) = none) := by
  exact spec_construction_gating_clock exCfg 0 3 5 true rfl (by norm_num)
    (by norm_num)

end ACRemote
